import Mathlib

/-!
Verification model of `src/OPTools/Icons/convert_svg_to_ico.py`.

The script loads one SVG drawing, rasterizes it at each size of a size list,
collects the successfully produced bitmaps, and saves them as one ICO file.
External libraries (svglib's `svg2rlg`, reportlab's `renderPM.drawToString`,
Pillow's `Image.open` / `resize` / `convert` / `save`) are modelled as an
environment of fallible functions; the script's own control flow and the
reportlab drawing state it mutates are translated directly.

Key modelling choices:
- `Drawing` carries the reportlab drawing's `width`/`height` attributes and the
  diagonal of its affine transform (`scaleX`, `scaleY`).  The script only ever
  rescales, so the transform stays diagonal.  `Drawing.scaleBoth` composes with
  the existing transform by multiplication, exactly as reportlab's
  `Group.scale` does (`self.transform = mmult(self.transform, (sx,0,0,sy,0,0))`).
- Python exceptions of the external calls become `Except String` results; the
  script's `try/except` blocks become the corresponding `match` branches.
- `sys.exit(1)` points become `Outcome` constructors; a `RunTrace` records the
  observable events of a run (load calls, per-size step results, the drawing
  passed to each render call, whether `save` was reached).
-/

namespace SvgToIco

/-- Reportlab drawing state: nominal `width`/`height` attributes and the
diagonal entries of the accumulated affine transform.  A freshly parsed
256x256 SVG has width = height = 256 and identity transform (1, 1). -/
structure Drawing where
  width : ℚ
  height : ℚ
  scaleX : ℚ
  scaleY : ℚ
deriving DecidableEq

/-- Reportlab `Group.scale(sx, sy)`: composes the given scale with the
drawing's current transform (multiplication on the diagonal). -/
def Drawing.scaleBoth (d : Drawing) (sx sy : ℚ) : Drawing :=
  { d with scaleX := d.scaleX * sx, scaleY := d.scaleY * sy }

/-- Opaque handle standing for a PNG byte string produced by the renderer. -/
abbrev Png := ℕ

/-- A PIL image: pixel dimensions, pixel-mode string (as in PIL: "RGBA",
"RGB", "L", "P", ...), and an opaque handle for the pixel content. -/
structure Img where
  width : ℕ
  height : ℕ
  mode : String
  data : ℕ
deriving DecidableEq

/-- PIL `img.size`: the `(width, height)` pair. -/
def Img.size (i : Img) : ℕ × ℕ := (i.width, i.height)

/-- The external world: the library calls the script makes, each one a
deterministic function that may fail (modelling a raised exception).
`drawToString d fmt dpi` is reportlab's `renderPM.drawToString`;
`imageOpen` is PIL `Image.open` on PNG bytes; `resize i wh filter` is PIL
`Image.resize`; `convert i m` is PIL `Image.convert`; `save base path fmt dir`
is PIL `Image.save` with the ICO `sizes` keyword. -/
structure Env where
  svg2rlg : String → Except String (Option Drawing)
  drawToString : Drawing → String → ℕ → Except String Png
  imageOpen : Png → Except String Img
  resize : Img → ℕ × ℕ → String → Except String Img
  convert : Img → String → Except String Img
  save : Img → String → String → List (ℕ × ℕ) → Except String Unit

/-- The default size list of `svg_to_ico` (line 25 of the script). -/
def defaultSizes : List ℕ := [16, 32, 48, 64, 96, 128, 256]

/-- Lines 45-48 of the script, the per-iteration drawing mutation:
`scale = size / 256.0`; `drawing.width = size`; `drawing.height = size`;
`drawing.scale(scale, scale)`.  The width/height attributes are overwritten,
but the scale composes with whatever transform the drawing already carries. -/
def scaledDrawing (d : Drawing) (size : ℕ) : Drawing :=
  let scale : ℚ := (size : ℚ) / 256
  Drawing.scaleBoth { d with width := (size : ℚ), height := (size : ℚ) } scale scale

/-- Result of one iteration of the size loop: either an image was appended to
`images` for this size, or the failure was caught and a warning naming the
size was printed (lines 70-74). -/
inductive StepResult where
  | ok (size : ℕ) (img : Img)
  | warn (size : ℕ)
deriving DecidableEq

/-- The size a step result is about (the loop variable of its iteration). -/
def StepResult.size : StepResult → ℕ
  | .ok s _ => s
  | .warn s => s

/-- Whether the step appended an image. -/
def StepResult.isOk : StepResult → Bool
  | .ok _ _ => true
  | .warn _ => false

/-- Lines 56-58: `if img.size != (size, size): img = img.resize((size, size),
Image.Resampling.LANCZOS)`.  Returns the (possibly failed) resulting image and
a record of the resize call made, if any. -/
def resizeStep (env : Env) (size : ℕ) (img : Img) :
    Except String Img × Option ((ℕ × ℕ) × String) :=
  if Img.size img ≠ (size, size) then
    (env.resize img (size, size) ("LANCZOS"), some ((size, size), "LANCZOS"))
  else (.ok img, none)

/-- Lines 60-66: keep RGBA as-is; convert any other non-RGB mode to RGB;
leave RGB unchanged. -/
def normalizeMode (env : Env) (img : Img) : Except String Img :=
  if img.mode = "RGBA" then .ok img
  else if img.mode ≠ "RGB" then env.convert img ("RGB")
  else .ok img

/-- The body of the `try` block of one loop iteration after the drawing has
been mutated to `d1` (lines 51-68): render to PNG bytes, open as a PIL image,
resize if needed, normalize the mode, and append.  Any failure is caught and
becomes a warning for this size.  Also returns the resize call made, if any. -/
def renderAndCollect (env : Env) (size : ℕ) (d1 : Drawing) :
    StepResult × Option ((ℕ × ℕ) × String) :=
  match env.drawToString d1 ("PNG") 96 with
  | .error _ => (.warn size, none)
  | .ok png =>
    match env.imageOpen png with
    | .error _ => (.warn size, none)
    | .ok img =>
      match (resizeStep env size img).1 with
      | .error _ => (.warn size, (resizeStep env size img).2)
      | .ok img2 =>
        match normalizeMode env img2 with
        | .error _ => (.warn size, (resizeStep env size img).2)
        | .ok img3 => (.ok size img3, (resizeStep env size img).2)

/-- Everything observable about one iteration of the size loop. -/
structure StepOut where
  drawing : Drawing
  result : StepResult
  renderArg : Drawing
  resizeCall : Option ((ℕ × ℕ) × String)

/-- One iteration of the size loop (lines 41-74) starting from drawing state
`d`.  The drawing mutation (lines 45-48) happens before the first fallible
call, so it persists even when the iteration fails; `renderArg` is the drawing
state passed to `renderPM.drawToString`. -/
def processSize (env : Env) (d : Drawing) (size : ℕ) : StepOut :=
  let d1 := scaledDrawing d size
  let rc := renderAndCollect env size d1
  { drawing := d1, result := rc.1, renderArg := d1, resizeCall := rc.2 }

/-- Observable outcome of the whole size loop. -/
structure LoopOut where
  drawing : Drawing
  steps : List StepResult
  renderArgs : List Drawing
  resizeCalls : List (Option ((ℕ × ℕ) × String))

/-- The size loop (lines 41-74): iterations run strictly in list order,
threading the shared mutable drawing state. -/
def runLoop (env : Env) : Drawing → List ℕ → LoopOut
  | d, [] => ⟨d, [], [], []⟩
  | d, s :: rest =>
    let st := processSize env d s
    let tail := runLoop env st.drawing rest
    ⟨tail.drawing, st.result :: tail.steps, st.renderArg :: tail.renderArgs,
      st.resizeCall :: tail.resizeCalls⟩

/-- The `images` list after the loop: the appended image of every successful
step, in iteration order. -/
def collectImages (steps : List StepResult) : List Img :=
  steps.filterMap fun r => match r with | .ok _ i => some i | .warn _ => none

/-- The sizes whose step succeeded, in iteration order. -/
def succeededSizes (steps : List StepResult) : List ℕ :=
  steps.filterMap fun r => match r with | .ok s _ => some s | .warn _ => none

/-- ICO write request: `images[0].save(ico_path, format='ICO', sizes=[...])`
(lines 82-86) — the base frame, the destination path, and the size directory. -/
structure IcoFile where
  path : String
  base : Img
  sizesDir : List (ℕ × ℕ)
deriving DecidableEq

/-- Outcome of a run: the three `sys.exit(1)` points reachable after import
(load failure at lines 36/39, empty collection at line 78, save failure at
line 90), or success with the ICO write request that was performed. -/
inductive Outcome where
  | exitLoad
  | exitNoImages
  | exitSave
  | success (ico : IcoFile)
deriving DecidableEq

/-- Observable trace of a run: how many times the SVG was loaded, the per-size
step results, the drawing state passed to each render call, and whether the
save step was reached. -/
structure RunTrace where
  loadCalls : ℕ
  steps : List StepResult
  renderArgs : List Drawing
  saveCalled : Bool

/-- Lines 76-90: the tail of `svg_to_ico` after a successful load — exit if no
images were created, else save the first image with the size directory of all
collected images. -/
def mainAfterLoad (env : Env) (ico_path : String) (lp : LoopOut) :
    Outcome × RunTrace :=
  match collectImages lp.steps with
  | [] => (.exitNoImages, ⟨1, lp.steps, lp.renderArgs, false⟩)
  | img0 :: rest =>
    match env.save img0 ico_path ("ICO") ((img0 :: rest).map Img.size) with
    | .error _ => (.exitSave, ⟨1, lp.steps, lp.renderArgs, true⟩)
    | .ok _ => (.success ⟨ico_path, img0, (img0 :: rest).map Img.size⟩,
        ⟨1, lp.steps, lp.renderArgs, true⟩)

/-- The function `svg_to_ico(svg_path, ico_path, sizes=None)` (lines 22-90):
resolve the default size list, load the SVG exactly once (exiting on a raised
exception or a `None` drawing), run the size loop, then exit or save. -/
def svg_to_ico (env : Env) (svg_path ico_path : String)
    (sizes : Option (List ℕ)) : Outcome × RunTrace :=
  match env.svg2rlg svg_path with
  | .error _ => (.exitLoad, ⟨1, [], [], false⟩)
  | .ok none => (.exitLoad, ⟨1, [], [], false⟩)
  | .ok (some drawing) =>
    mainAfterLoad env ico_path (runLoop env drawing (sizes.getD defaultSizes))

/-- A freshly parsed 256x256 SVG drawing: identity transform. -/
def d256 : Drawing := ⟨256, 256, 1, 1⟩

/-- Pillow's documented behaviour of `resize`: on success the result has
exactly the requested pixel dimensions. -/
def ResizeDims (env : Env) : Prop :=
  ∀ i wh f r, env.resize i wh f = .ok r → r.width = wh.1 ∧ r.height = wh.2

/-- Pillow's documented behaviour of `resize`: the pixel mode is unchanged. -/
def ResizeMode (env : Env) : Prop :=
  ∀ i wh f r, env.resize i wh f = .ok r → r.mode = i.mode

/-- Pillow's documented behaviour of `convert`: pixel dimensions are kept. -/
def ConvertDims (env : Env) : Prop :=
  ∀ i m r, env.convert i m = .ok r → r.width = i.width ∧ r.height = i.height

/-- Pillow's documented behaviour of `convert`: the result has the requested
pixel mode. -/
def ConvertMode (env : Env) : Prop :=
  ∀ i m r, env.convert i m = .ok r → r.mode = m

/-- An environment in which every external call succeeds: the SVG parses to a
256x256 drawing, rendering yields PNG bytes, decoding yields a bitmap (whose
dimensions then get fixed by the resize step), and resize/convert/save follow
Pillow's documented behaviour. -/
def happyEnv : Env where
  svg2rlg := fun _ => .ok (some d256)
  drawToString := fun _ _ _ => .ok 0
  imageOpen := fun _ => .ok ⟨0, 0, "RGBA", 0⟩
  resize := fun i wh _ => .ok ⟨wh.1, wh.2, i.mode, i.data⟩
  convert := fun i m => .ok ⟨i.width, i.height, m, i.data⟩
  save := fun _ _ _ _ => .ok ()

/-- Like `happyEnv`, but rendering raises for the drawing whose width
attribute is 32 — i.e. exactly when size 32 is being rasterized. -/
def failEnv32 : Env :=
  { happyEnv with
    drawToString := fun d _ _ => if d.width = 32 then .error ("boom") else .ok 0 }

/-- Like `happyEnv`, but every render call raises. -/
def failAllEnv : Env :=
  { happyEnv with drawToString := fun _ _ _ => .error ("boom") }

/-- An environment in which loading the SVG raises. -/
def badLoadEnv : Env :=
  { happyEnv with svg2rlg := fun _ => .error ("No such file") }

/-- The ICO write request of the fully successful `[16, 32]` run used as a
concrete witness input. -/
def ico16_32 : IcoFile := ⟨"a.ico", ⟨16, 16, "RGBA", 0⟩, [(16, 16), (32, 32)]⟩




theorem size_renderAndCollect (env : Env) (s : ℕ) (d1 : Drawing) :
    ((renderAndCollect env s d1).1).size = s := by
  unfold renderAndCollect
  split
  · rfl
  · split
    · rfl
    · split
      · rfl
      · split
        · rfl
        · rfl

theorem runLoop_steps_sizes (env : Env) (d : Drawing) (szs : List ℕ) :
    ((runLoop env d szs).steps).map StepResult.size = szs := by
  induction szs generalizing d with
  | nil => rfl
  | cons s rest ih =>
      simp [runLoop, processSize, ih, size_renderAndCollect]

theorem renderAndCollect_cases (env : Env) (s : ℕ) (d1 : Drawing) :
    (∃ img, (renderAndCollect env s d1).1 = .ok s img) ∨
      (renderAndCollect env s d1).1 = .warn s := by
  have h := size_renderAndCollect env s d1
  cases hr : (renderAndCollect env s d1).1 with
  | ok s2 img =>
      left
      exact ⟨img, by rw [hr] at h; simp [StepResult.size] at h; rw [h]⟩
  | warn s2 =>
      right
      rw [hr] at h
      simp [StepResult.size] at h
      rw [h]

theorem resizeStep_ok_dims (env : Env) (hres : ResizeDims env) (s : ℕ)
    (img img2 : Img) (h : (resizeStep env s img).1 = .ok img2) :
    img2.width = s ∧ img2.height = s := by
  unfold resizeStep at h
  split at h
  next hsz => exact hres img (s, s) ("LANCZOS") img2 h
  next hsz =>
    push_neg at hsz
    have h' : (Except.ok img : Except String Img) = .ok img2 := h
    injection h' with h'
    subst h'
    exact ⟨congrArg Prod.fst hsz, congrArg Prod.snd hsz⟩

theorem resizeStep_ok_mode (env : Env) (hres : ResizeMode env) (s : ℕ)
    (img img2 : Img) (h : (resizeStep env s img).1 = .ok img2) :
    img2.mode = img.mode := by
  unfold resizeStep at h
  split at h
  next hsz => exact hres img (s, s) ("LANCZOS") img2 h
  next hsz =>
    have h' : (Except.ok img : Except String Img) = .ok img2 := h
    injection h' with h'
    subst h'
    rfl

theorem normalizeMode_ok_dims (env : Env) (hconv : ConvertDims env)
    (img r : Img) (h : normalizeMode env img = .ok r) :
    r.width = img.width ∧ r.height = img.height := by
  unfold normalizeMode at h
  split at h
  next h1 =>
    injection h with h'
    subst h'
    exact ⟨rfl, rfl⟩
  next h1 =>
    split at h
    next h2 => exact hconv img ("RGB") r h
    next h2 =>
      injection h with h'
      subst h'
      exact ⟨rfl, rfl⟩

theorem normalizeMode_ok_mode (env : Env) (hconvM : ConvertMode env)
    (img r : Img) (h : normalizeMode env img = .ok r) :
    r.mode = "RGBA" ∨ r.mode = "RGB" := by
  unfold normalizeMode at h
  split at h
  next h1 =>
    injection h with h'
    subst h'
    left; exact h1
  next h1 =>
    split at h
    next h2 => right; exact hconvM img ("RGB") r h
    next h2 =>
      injection h with h'
      subst h'
      right
      push_neg at h2
      exact h2



theorem renderAndCollect_ok_dims (env : Env) (hres : ResizeDims env)
    (hconv : ConvertDims env) (s : ℕ) (d1 : Drawing) (s2 : ℕ) (img : Img)
    (h : (renderAndCollect env s d1).1 = .ok s2 img) :
    s2 = s ∧ img.width = s ∧ img.height = s := by
  unfold renderAndCollect at h
  split at h
  next e heq1 => exact absurd h (by simp)
  next png heq1 =>
    split at h
    next e heq2 => exact absurd h (by simp)
    next img0 heq2 =>
      split at h
      next e heq3 => exact absurd h (by simp)
      next img2 heq3 =>
        split at h
        next e heq4 => exact absurd h (by simp)
        next img3 heq4 =>
          have h' : (StepResult.ok s img3 : StepResult) = .ok s2 img := h
          injection h' with h1 h2
          have hd2 := resizeStep_ok_dims env hres s img0 img2 heq3
          have hd3 := normalizeMode_ok_dims env hconv img2 img3 heq4
          exact ⟨h1.symm, h2 ▸ (hd3.1.trans hd2.1), h2 ▸ (hd3.2.trans hd2.2)⟩

theorem renderAndCollect_ok_mode (env : Env) (hconvM : ConvertMode env)
    (s : ℕ) (d1 : Drawing) (s2 : ℕ) (img : Img)
    (h : (renderAndCollect env s d1).1 = .ok s2 img) :
    img.mode = "RGBA" ∨ img.mode = "RGB" := by
  unfold renderAndCollect at h
  split at h
  next e heq1 => exact absurd h (by simp)
  next png heq1 =>
    split at h
    next e heq2 => exact absurd h (by simp)
    next img0 heq2 =>
      split at h
      next e heq3 => exact absurd h (by simp)
      next img2 heq3 =>
        split at h
        next e heq4 => exact absurd h (by simp)
        next img3 heq4 =>
          have h' : (StepResult.ok s img3 : StepResult) = .ok s2 img := h
          injection h' with h1 h2
          exact h2 ▸ normalizeMode_ok_mode env hconvM img2 img3 heq4

theorem runLoop_ok_dims (env : Env) (hres : ResizeDims env)
    (hconv : ConvertDims env) (d : Drawing) (szs : List ℕ) :
    ∀ r ∈ (runLoop env d szs).steps, ∀ s img, r = .ok s img →
      img.width = s ∧ img.height = s := by
  induction szs generalizing d with
  | nil => intro r hr; simp [runLoop] at hr
  | cons s0 rest ih =>
      intro r hr s img hok
      simp only [runLoop, List.mem_cons] at hr
      cases hr with
      | inl hr =>
          rw [hok] at hr
          have hrc : (renderAndCollect env s0 (scaledDrawing d s0)).1
              = .ok s img := hr.symm
          have := renderAndCollect_ok_dims env hres hconv s0
            (scaledDrawing d s0) s img hrc
          obtain ⟨h1, h2, h3⟩ := this
          subst h1
          exact ⟨h2, h3⟩
      | inr hr => exact ih _ r hr s img hok



theorem collect_map_size (steps : List StepResult)
    (hdims : ∀ r ∈ steps, ∀ s img, r = .ok s img →
      img.width = s ∧ img.height = s) :
    (collectImages steps).map Img.size
      = (succeededSizes steps).map (fun s => (s, s)) := by
  induction steps with
  | nil => rfl
  | cons r rest ih =>
      have hrest : ∀ r2 ∈ rest, ∀ s img, r2 = .ok s img →
          img.width = s ∧ img.height = s :=
        fun r2 hr2 s img h => hdims r2 (List.mem_cons_of_mem r hr2) s img h
      cases r with
      | ok s img =>
          have hd := hdims (.ok s img) (List.mem_cons_self _ _) s img rfl
          simp [collectImages, succeededSizes, Img.size, hd.1, hd.2]
          exact ih hrest
      | warn s =>
          simp [collectImages, succeededSizes]
          exact ih hrest

theorem succeededSizes_of_allOk (steps : List StepResult)
    (hok : ∀ r ∈ steps, r.isOk = true) :
    succeededSizes steps = steps.map StepResult.size := by
  induction steps with
  | nil => rfl
  | cons r rest ih =>
      have hrest : ∀ r2 ∈ rest, r2.isOk = true :=
        fun r2 hr2 => hok r2 (List.mem_cons_of_mem r hr2)
      cases r with
      | ok s img => simp [succeededSizes, StepResult.size]; exact ih hrest
      | warn s =>
          exact absurd (hok (.warn s) (List.mem_cons_self _ _)) (by simp [StepResult.isOk])

theorem collectImages_length_eq (steps : List StepResult) :
    (collectImages steps).length = (succeededSizes steps).length := by
  induction steps with
  | nil => rfl
  | cons r rest ih =>
      cases r with
      | ok s img => simp [collectImages, succeededSizes]; exact ih
      | warn s => simp [collectImages, succeededSizes]; exact ih



theorem svg_to_ico_success_structure (env : Env) (svgp icop : String)
    (szs : List ℕ) (d0 : Drawing) (ico : IcoFile)
    (hload : env.svg2rlg svgp = .ok (some d0))
    (hout : (svg_to_ico env svgp icop (some szs)).1 = .success ico) :
    ico.path = icop
    ∧ (collectImages (runLoop env d0 szs).steps).head? = some ico.base
    ∧ ico.sizesDir = (collectImages (runLoop env d0 szs).steps).map Img.size := by
  unfold svg_to_ico at hout
  rw [hload] at hout
  simp only [Option.getD_some] at hout
  unfold mainAfterLoad at hout
  cases hc : collectImages (runLoop env d0 szs).steps with
  | nil => rw [hc] at hout; simp at hout
  | cons img0 rest =>
      rw [hc] at hout
      have hout2 : (match env.save img0 icop ("ICO") ((img0 :: rest).map Img.size) with
        | Except.error _ => (Outcome.exitSave,
            (⟨1, (runLoop env d0 szs).steps, (runLoop env d0 szs).renderArgs, true⟩ : RunTrace))
        | Except.ok _ => (Outcome.success ⟨icop, img0, (img0 :: rest).map Img.size⟩,
            (⟨1, (runLoop env d0 szs).steps, (runLoop env d0 szs).renderArgs, true⟩ : RunTrace))).1
          = Outcome.success ico := hout
      cases hs : env.save img0 icop ("ICO") ((img0 :: rest).map Img.size) with
      | error e => rw [hs] at hout2; simp at hout2
      | ok u =>
          rw [hs] at hout2
          have h2 : Outcome.success ⟨icop, img0, (img0 :: rest).map Img.size⟩
              = .success ico := hout2
          injection h2 with h2
          rw [← h2]
          exact ⟨rfl, rfl, rfl⟩



theorem svg_to_ico_noImages (env : Env) (svgp icop : String) (szs : List ℕ)
    (d0 : Drawing) (hload : env.svg2rlg svgp = .ok (some d0))
    (hempty : collectImages (runLoop env d0 szs).steps = []) :
    svg_to_ico env svgp icop (some szs)
      = (.exitNoImages, ⟨1, (runLoop env d0 szs).steps,
          (runLoop env d0 szs).renderArgs, false⟩) := by
  unfold svg_to_ico
  rw [hload]
  simp only [Option.getD_some]
  unfold mainAfterLoad
  rw [hempty]

theorem svg_to_ico_loadFail (env : Env) (svgp icop : String)
    (sizes : Option (List ℕ))
    (hfail : (∃ e, env.svg2rlg svgp = .error e) ∨ env.svg2rlg svgp = .ok none) :
    svg_to_ico env svgp icop sizes = (.exitLoad, ⟨1, [], [], false⟩) := by
  unfold svg_to_ico
  rcases hfail with ⟨e, he⟩ | he <;> rw [he]

theorem mainAfterLoad_loadCalls (env : Env) (icop : String) (lp : LoopOut) :
    (mainAfterLoad env icop lp).2.loadCalls = 1 := by
  unfold mainAfterLoad
  split
  · rfl
  · split
    · rfl
    · rfl

theorem svg_to_ico_loadCalls (env : Env) (svgp icop : String)
    (sizes : Option (List ℕ)) :
    (svg_to_ico env svgp icop sizes).2.loadCalls = 1 := by
  unfold svg_to_ico
  split
  · rfl
  · rfl
  · exact mainAfterLoad_loadCalls env icop _



theorem resizeStep_snd (env : Env) (s : ℕ) (img : Img)
    (hsz : Img.size img ≠ (s, s)) :
    (resizeStep env s img).2 = some ((s, s), "LANCZOS") := by
  unfold resizeStep
  rw [if_pos hsz]

theorem renderAndCollect_resizeCall (env : Env) (s : ℕ) (d1 : Drawing)
    (png : Png) (img : Img)
    (hrender : env.drawToString d1 ("PNG") 96 = .ok png)
    (hopen : env.imageOpen png = .ok img)
    (hsz : Img.size img ≠ (s, s)) :
    (renderAndCollect env s d1).2 = some ((s, s), "LANCZOS") := by
  simp only [renderAndCollect, hrender, hopen]
  cases hz : (resizeStep env s img).1 with
  | error e => simp only [hz]; exact resizeStep_snd env s img hsz
  | ok img2 =>
      simp only [hz]
      cases hn : normalizeMode env img2 with
      | error e => simp only [hn]; exact resizeStep_snd env s img hsz
      | ok img3 => simp only [hn]; exact resizeStep_snd env s img hsz

theorem renderFail_warn (env : Env) (d : Drawing) (s : ℕ) (e : String)
    (hfail : env.drawToString (scaledDrawing d s) ("PNG") 96 = .error e) :
    (processSize env d s).result = .warn s := by
  show (renderAndCollect env s (scaledDrawing d s)).1 = .warn s
  simp only [renderAndCollect, hfail]





theorem happyEnv_resize_dims : ResizeDims happyEnv := by
  intro i wh f r h
  injection h with h
  rw [← h]
  exact ⟨rfl, rfl⟩

theorem happyEnv_resize_mode : ResizeMode happyEnv := by
  intro i wh f r h
  injection h with h
  rw [← h]

theorem happyEnv_convert_dims : ConvertDims happyEnv := by
  intro i m r h
  injection h with h
  rw [← h]
  exact ⟨rfl, rfl⟩

theorem happyEnv_convert_mode : ConvertMode happyEnv := by
  intro i m r h
  injection h with h
  rw [← h]

theorem svg_to_ico_success_of (env : Env) (svgp icop : String) (szs : List ℕ)
    (d0 : Drawing) (img0 : Img) (rest : List Img)
    (hload : env.svg2rlg svgp = .ok (some d0))
    (hc : collectImages (runLoop env d0 szs).steps = img0 :: rest)
    (hsave : env.save img0 icop ("ICO") ((img0 :: rest).map Img.size) = .ok ()) :
    (svg_to_ico env svgp icop (some szs)).1
      = .success ⟨icop, img0, (img0 :: rest).map Img.size⟩ := by
  unfold svg_to_ico
  rw [hload]
  simp only [Option.getD_some]
  simp only [mainAfterLoad, hc, hsave]

theorem renderAndCollect_rgba_kept (env : Env) (hresM : ResizeMode env)
    (s : ℕ) (d1 : Drawing) (png : Png) (img : Img) (s2 : ℕ) (img3 : Img)
    (hrender : env.drawToString d1 ("PNG") 96 = .ok png)
    (hopen : env.imageOpen png = .ok img)
    (hmode : img.mode = "RGBA")
    (h : (renderAndCollect env s d1).1 = .ok s2 img3) :
    img3.mode = "RGBA" := by
  simp only [renderAndCollect, hrender, hopen] at h
  cases hz : (resizeStep env s img).1 with
  | error e => simp only [hz] at h; exact absurd h (by simp)
  | ok img2 =>
      simp only [hz] at h
      have hm2 : img2.mode = "RGBA" :=
        (resizeStep_ok_mode env hresM s img img2 hz).trans hmode
      cases hn : normalizeMode env img2 with
      | error e => simp only [hn] at h; exact absurd h (by simp)
      | ok i3 =>
          simp only [hn] at h
          have h' : (StepResult.ok s i3 : StepResult) = .ok s2 img3 := h
          injection h' with ha hb
          unfold normalizeMode at hn
          rw [if_pos hm2] at hn
          injection hn with hn
          rw [← hb, ← hn]
          exact hm2



/-- Claim C1 (code bug): evaluating the code at sizes `[16, 32]` on a native
256x256 drawing (identity transform) with a succeeding renderer shows the
second rendering pass receives the drawing at accumulated scale
`(16/256) * (32/256) = 1/128` relative to the native artwork, not the claimed
`32/256`: `drawing.scale` composes with the transform left behind by the
previous iteration instead of replacing it, contradicting the per-size scale
`s / 256` that the code's own comments and the spec intend. -/
theorem scale_accumulates_at_16_32 :
    ((svg_to_ico happyEnv ("chip.svg") ("chip.ico") (some [16, 32])).2.renderArgs.map
        Drawing.scaleX = [16/256, 16/256 * (32/256)])
    ∧ ((16 : ℚ)/256 * (32/256) ≠ 32/256) := by
  constructor
  · have h : (svg_to_ico happyEnv ("chip.svg") ("chip.ico") (some [16, 32])).2.renderArgs
        = (runLoop happyEnv d256 [16, 32]).renderArgs := rfl
    rw [h]
    simp [runLoop, processSize, scaledDrawing, Drawing.scaleBoth, d256]
  · norm_num



/-- Claim C2: whenever a run reaches the encode step (outcome `success ico`),
the loop produced one step per requested size in traversal order, the ICO
write request uses the first collected image as the base frame, its size
directory lists the `(width, height)` pair of every collected image, and —
given Pillow's resize/convert dimension behaviour — that directory is exactly
one `(s, s)` entry per size whose step succeeded, in traversal order. -/
theorem encode_uses_collection (env : Env) (svgp icop : String)
    (szs : List ℕ) (d0 : Drawing) (ico : IcoFile)
    (hres : ResizeDims env) (hconv : ConvertDims env)
    (hload : env.svg2rlg svgp = .ok (some d0))
    (hout : (svg_to_ico env svgp icop (some szs)).1 = .success ico) :
    ((runLoop env d0 szs).steps.map StepResult.size = szs)
    ∧ (collectImages (runLoop env d0 szs).steps).head? = some ico.base
    ∧ ico.sizesDir = (collectImages (runLoop env d0 szs).steps).map Img.size
    ∧ ico.sizesDir = (succeededSizes (runLoop env d0 szs).steps).map
        (fun s => (s, s)) := by
  have hs := svg_to_ico_success_structure env svgp icop szs d0 ico hload hout
  refine ⟨runLoop_steps_sizes env d0 szs, hs.2.1, hs.2.2, ?_⟩
  rw [hs.2.2]
  exact collect_map_size _ (runLoop_ok_dims env hres hconv d0 szs)

/-- Witness for C2 at the concrete input `sizes = [16, 32]` in the
all-successful environment. -/
theorem encode_uses_collection_witness :
    ((runLoop happyEnv d256 [16, 32]).steps.map StepResult.size = [16, 32])
    ∧ (collectImages (runLoop happyEnv d256 [16, 32]).steps).head?
        = some ico16_32.base
    ∧ ico16_32.sizesDir
        = (collectImages (runLoop happyEnv d256 [16, 32]).steps).map Img.size
    ∧ ico16_32.sizesDir
        = (succeededSizes (runLoop happyEnv d256 [16, 32]).steps).map
            (fun s => (s, s)) :=
  encode_uses_collection happyEnv ("a.svg") ("a.ico") [16, 32] d256 ico16_32
    happyEnv_resize_dims happyEnv_convert_dims rfl (by decide)

/-- Claim C3: every image appended to the collection for requested size `s`
has pixel dimensions exactly `(s, s)` (given Pillow's resize/convert dimension
behaviour), and whenever the decoded bitmap's dimensions differ from `(s, s)`
the step issues a resize call to exactly `(s, s)` with the LANCZOS filter. -/
theorem appended_dims_lanczos (env : Env)
    (hres : ResizeDims env) (hconv : ConvertDims env) :
    (∀ d szs r, r ∈ (runLoop env d szs).steps → ∀ s img, r = .ok s img →
        img.width = s ∧ img.height = s)
    ∧ (∀ s d1 png img, env.drawToString d1 ("PNG") 96 = .ok png →
        env.imageOpen png = .ok img → Img.size img ≠ (s, s) →
        (renderAndCollect env s d1).2 = some ((s, s), "LANCZOS")) := by
  constructor
  · intro d szs r hr s img hok
    exact runLoop_ok_dims env hres hconv d szs r hr s img hok
  · intro s d1 png img h1 h2 h3
    exact renderAndCollect_resizeCall env s d1 png img h1 h2 h3

/-- Witness for C3: size 16 in the all-successful environment, where the
decoded bitmap has dimensions (0, 0) and gets resized. -/
theorem appended_dims_lanczos_witness :
    ((⟨16, 16, "RGBA", 0⟩ : Img).width = 16
      ∧ (⟨16, 16, "RGBA", 0⟩ : Img).height = 16)
    ∧ (renderAndCollect happyEnv 16 d256).2 = some ((16, 16), "LANCZOS") :=
  ⟨(appended_dims_lanczos happyEnv happyEnv_resize_dims happyEnv_convert_dims).1
      d256 [16] (.ok 16 ⟨16, 16, "RGBA", 0⟩) (by decide) 16
      ⟨16, 16, "RGBA", 0⟩ rfl,
   (appended_dims_lanczos happyEnv happyEnv_resize_dims happyEnv_convert_dims).2
      16 d256 0 ⟨0, 0, "RGBA", 0⟩ rfl rfl (by decide)⟩



/-- Claim C4: the loop is total — it produces exactly one step per size of the
list, in traversal order, regardless of which steps fail; every iteration
either appends an image for its own size or yields the warning naming exactly
that size; and a rendering failure for a size yields that size's warning.  A
failure of one size therefore never terminates the run by itself. -/
theorem per_size_failures_contained (env : Env) (d : Drawing) (szs : List ℕ) :
    ((runLoop env d szs).steps.map StepResult.size = szs)
    ∧ (∀ d2 s, (∃ img, (processSize env d2 s).result = .ok s img) ∨
        (processSize env d2 s).result = .warn s)
    ∧ (∀ d2 s e, env.drawToString (scaledDrawing d2 s) ("PNG") 96 = .error e →
        (processSize env d2 s).result = .warn s) := by
  refine ⟨runLoop_steps_sizes env d szs, ?_, ?_⟩
  · intro d2 s
    exact renderAndCollect_cases env s (scaledDrawing d2 s)
  · intro d2 s e he
    exact renderFail_warn env d2 s e he

/-- Witness for C4: with sizes `[16, 32, 48]` and rendering failing exactly
for size 32, every size still gets its step and size 32's step is the
warning naming 32. -/
theorem per_size_failures_contained_witness :
    ((runLoop failEnv32 d256 [16, 32, 48]).steps.map StepResult.size
        = [16, 32, 48])
    ∧ (processSize failEnv32 d256 32).result = .warn 32 :=
  ⟨(per_size_failures_contained failEnv32 d256 [16, 32, 48]).1,
   (per_size_failures_contained failEnv32 d256 [16, 32, 48]).2.2 d256 32
     ("boom") rfl⟩

/-- Claim C5: if the collection is empty after the loop (every requested size
failed), the run exits through the fatal no-images path with a non-zero
status and the save step is never reached, so no output file is written. -/
theorem empty_collection_fatal (env : Env) (svgp icop : String) (szs : List ℕ)
    (d0 : Drawing) (hload : env.svg2rlg svgp = .ok (some d0))
    (hempty : collectImages (runLoop env d0 szs).steps = []) :
    (svg_to_ico env svgp icop (some szs)).1 = .exitNoImages
    ∧ (svg_to_ico env svgp icop (some szs)).2.saveCalled = false := by
  rw [svg_to_ico_noImages env svgp icop szs d0 hload hempty]
  exact ⟨rfl, rfl⟩

/-- Witness for C5: every render call fails, so both requested sizes fail. -/
theorem empty_collection_fatal_witness :
    (svg_to_ico failAllEnv ("a.svg") ("a.ico") (some [16, 32])).1
        = .exitNoImages
    ∧ (svg_to_ico failAllEnv ("a.svg") ("a.ico") (some [16, 32])).2.saveCalled
        = false :=
  empty_collection_fatal failAllEnv ("a.svg") ("a.ico") [16, 32] d256 rfl
    (by decide)

/-- Claim C6: pixel-mode normalization — an RGBA image passes through
unchanged, an RGB image passes through unchanged, any other mode is converted
to RGB (given Pillow's convert behaviour); an image decoded as RGBA is still
RGBA when appended (given Pillow's resize keeps the mode); and consequently
every appended image is RGBA or RGB. -/
theorem mode_normalization (env : Env)
    (hconvM : ConvertMode env) (hresM : ResizeMode env) :
    (∀ img : Img, img.mode = "RGBA" → normalizeMode env img = .ok img)
    ∧ (∀ img : Img, img.mode = "RGB" → normalizeMode env img = .ok img)
    ∧ (∀ img r : Img, img.mode ≠ "RGBA" → img.mode ≠ "RGB" →
        normalizeMode env img = .ok r →
        env.convert img ("RGB") = .ok r ∧ r.mode = "RGB")
    ∧ (∀ s d1 png img s2 img3,
        env.drawToString d1 ("PNG") 96 = .ok png →
        env.imageOpen png = .ok img → img.mode = "RGBA" →
        (renderAndCollect env s d1).1 = .ok s2 img3 → img3.mode = "RGBA")
    ∧ (∀ s d1 s2 img, (renderAndCollect env s d1).1 = .ok s2 img →
        img.mode = "RGBA" ∨ img.mode = "RGB") := by
  refine ⟨?_, ?_, ?_, ?_, ?_⟩
  · intro img h
    unfold normalizeMode
    rw [if_pos h]
  · intro img h
    unfold normalizeMode
    rw [if_neg (by rw [h]; decide), if_neg (by rw [h]; exact not_not_intro rfl)]
  · intro img r h1 h2 hn
    unfold normalizeMode at hn
    rw [if_neg h1, if_pos h2] at hn
    exact ⟨hn, hconvM img ("RGB") r hn⟩
  · intro s d1 png img s2 img3 hr ho hm h
    exact renderAndCollect_rgba_kept env hresM s d1 png img s2 img3 hr ho hm h
  · intro s d1 s2 img h
    exact renderAndCollect_ok_mode env hconvM s d1 s2 img h

/-- Witness for C6 at concrete RGBA, RGB and L-mode images. -/
theorem mode_normalization_witness :
    (normalizeMode happyEnv ⟨1, 1, "RGBA", 0⟩ = .ok ⟨1, 1, "RGBA", 0⟩)
    ∧ (normalizeMode happyEnv ⟨1, 1, "RGB", 0⟩ = .ok ⟨1, 1, "RGB", 0⟩)
    ∧ (happyEnv.convert ⟨1, 1, "L", 0⟩ ("RGB") = .ok ⟨1, 1, "RGB", 0⟩
        ∧ (⟨1, 1, "RGB", 0⟩ : Img).mode = "RGB")
    ∧ (⟨16, 16, "RGBA", 0⟩ : Img).mode = "RGBA"
    ∧ ((⟨16, 16, "RGBA", 0⟩ : Img).mode = "RGBA"
        ∨ (⟨16, 16, "RGBA", 0⟩ : Img).mode = "RGB") :=
  ⟨(mode_normalization happyEnv happyEnv_convert_mode happyEnv_resize_mode).1
      ⟨1, 1, "RGBA", 0⟩ rfl,
   (mode_normalization happyEnv happyEnv_convert_mode happyEnv_resize_mode).2.1
      ⟨1, 1, "RGB", 0⟩ rfl,
   (mode_normalization happyEnv happyEnv_convert_mode happyEnv_resize_mode).2.2.1
      ⟨1, 1, "L", 0⟩ ⟨1, 1, "RGB", 0⟩ (by decide) (by decide) rfl,
   (mode_normalization happyEnv happyEnv_convert_mode happyEnv_resize_mode).2.2.2.1
      16 d256 0 ⟨0, 0, "RGBA", 0⟩ 16 ⟨16, 16, "RGBA", 0⟩ rfl rfl rfl (by decide),
   (mode_normalization happyEnv happyEnv_convert_mode happyEnv_resize_mode).2.2.2.2
      16 d256 16 ⟨16, 16, "RGBA", 0⟩ (by decide)⟩

/-- Claim C7: the SVG source is loaded exactly once per run, and when loading
raises or yields an empty (`None`) drawing, the run exits through the fatal
load path before any size is processed — no steps, no render calls — and the
save step is never reached, so no output file is created. -/
theorem load_once_and_load_failure_fatal (env : Env) (svgp icop : String)
    (sizes : Option (List ℕ)) :
    ((svg_to_ico env svgp icop sizes).2.loadCalls = 1)
    ∧ (((∃ e, env.svg2rlg svgp = .error e) ∨ env.svg2rlg svgp = .ok none) →
        (svg_to_ico env svgp icop sizes).1 = .exitLoad
        ∧ (svg_to_ico env svgp icop sizes).2.steps = []
        ∧ (svg_to_ico env svgp icop sizes).2.renderArgs = []
        ∧ (svg_to_ico env svgp icop sizes).2.saveCalled = false) := by
  refine ⟨svg_to_ico_loadCalls env svgp icop sizes, fun hfail => ?_⟩
  rw [svg_to_ico_loadFail env svgp icop sizes hfail]
  exact ⟨rfl, rfl, rfl, rfl⟩

/-- Witness for C7: the loader raises (missing source file). -/
theorem load_once_and_load_failure_fatal_witness :
    ((svg_to_ico badLoadEnv ("missing.svg") ("a.ico") none).2.loadCalls = 1)
    ∧ ((svg_to_ico badLoadEnv ("missing.svg") ("a.ico") none).1 = .exitLoad
        ∧ (svg_to_ico badLoadEnv ("missing.svg") ("a.ico") none).2.steps = []
        ∧ (svg_to_ico badLoadEnv ("missing.svg") ("a.ico") none).2.renderArgs = []
        ∧ (svg_to_ico badLoadEnv ("missing.svg") ("a.ico") none).2.saveCalled
            = false) :=
  ⟨(load_once_and_load_failure_fatal badLoadEnv ("missing.svg") ("a.ico") none).1,
   (load_once_and_load_failure_fatal badLoadEnv ("missing.svg") ("a.ico") none).2
     (Or.inl ⟨"No such file", rfl⟩)⟩



/-- Claim C8: omitting the size list is exactly equivalent to passing the
seven default sizes 16, 32, 48, 64, 96, 128, 256; and a fully successful
default invocation yields a success outcome whose size directory is exactly
those seven sizes, in that order. -/
theorem default_sizes_used (env : Env) (svgp icop : String) (d0 : Drawing)
    (hres : ResizeDims env) (hconv : ConvertDims env)
    (hload : env.svg2rlg svgp = .ok (some d0))
    (hallok : ∀ r ∈ (runLoop env d0 defaultSizes).steps, r.isOk = true)
    (hsave : ∀ i p f dir, env.save i p f dir = .ok ()) :
    (svg_to_ico env svgp icop none
      = svg_to_ico env svgp icop (some [16, 32, 48, 64, 96, 128, 256]))
    ∧ ∃ ico, (svg_to_ico env svgp icop none).1 = .success ico
        ∧ ico.sizesDir = [(16, 16), (32, 32), (48, 48), (64, 64), (96, 96),
            (128, 128), (256, 256)] := by
  have hsucc : succeededSizes (runLoop env d0 defaultSizes).steps
      = defaultSizes := by
    rw [succeededSizes_of_allOk _ hallok, runLoop_steps_sizes]
  have hlen : (collectImages (runLoop env d0 defaultSizes).steps).length = 7 := by
    rw [collectImages_length_eq, hsucc]
    rfl
  cases hcoll : collectImages (runLoop env d0 defaultSizes).steps with
  | nil => rw [hcoll] at hlen; simp at hlen
  | cons img0 rest =>
      have hout : (svg_to_ico env svgp icop (some defaultSizes)).1
          = .success ⟨icop, img0, (img0 :: rest).map Img.size⟩ :=
        svg_to_ico_success_of env svgp icop defaultSizes d0 img0 rest
          hload hcoll (hsave _ _ _ _)
      refine ⟨rfl, ⟨icop, img0, (img0 :: rest).map Img.size⟩, hout, ?_⟩
      show (img0 :: rest).map Img.size = _
      rw [← hcoll,
        collect_map_size _ (runLoop_ok_dims env hres hconv d0 defaultSizes),
        hsucc]
      rfl

/-- Witness for C8: the all-successful environment. -/
theorem default_sizes_used_witness :
    (svg_to_ico happyEnv ("a.svg") ("a.ico") none
      = svg_to_ico happyEnv ("a.svg") ("a.ico")
          (some [16, 32, 48, 64, 96, 128, 256]))
    ∧ ∃ ico, (svg_to_ico happyEnv ("a.svg") ("a.ico") none).1 = .success ico
        ∧ ico.sizesDir = [(16, 16), (32, 32), (48, 48), (64, 64), (96, 96),
            (128, 128), (256, 256)] :=
  default_sizes_used happyEnv ("a.svg") ("a.ico") d256 happyEnv_resize_dims
    happyEnv_convert_dims rfl (by decide) (fun _ _ _ _ => rfl)

/-- Claim C9: the conversion is a deterministic function of its inputs and of
the external world: two runs whose environments agree pointwise on every
external call, with identical paths and size list, produce identical outcomes
and identical traces (hence byte-for-byte identical per-size image content). -/
theorem conversion_deterministic (e1 e2 : Env)
    (h1 : ∀ p, e1.svg2rlg p = e2.svg2rlg p)
    (h2 : ∀ d f dpi, e1.drawToString d f dpi = e2.drawToString d f dpi)
    (h3 : ∀ p, e1.imageOpen p = e2.imageOpen p)
    (h4 : ∀ i wh f, e1.resize i wh f = e2.resize i wh f)
    (h5 : ∀ i m, e1.convert i m = e2.convert i m)
    (h6 : ∀ i p f dir, e1.save i p f dir = e2.save i p f dir)
    (svgp icop : String) (sizes : Option (List ℕ)) :
    svg_to_ico e1 svgp icop sizes = svg_to_ico e2 svgp icop sizes := by
  have he : e1 = e2 := by
    obtain ⟨f1, f2, f3, f4, f5, f6⟩ := e1
    obtain ⟨g1, g2, g3, g4, g5, g6⟩ := e2
    simp only [Env.mk.injEq]
    refine ⟨funext h1, ?_, funext h3, ?_, ?_, ?_⟩
    · funext d f dpi
      exact h2 d f dpi
    · funext i wh f
      exact h4 i wh f
    · funext i m
      exact h5 i m
    · funext i p f dir
      exact h6 i p f dir
  rw [he]

/-- Witness for C9: two textually identical environments. -/
theorem conversion_deterministic_witness :
    svg_to_ico happyEnv ("a.svg") ("a.ico") (some [16, 32])
      = svg_to_ico happyEnv ("a.svg") ("a.ico") (some [16, 32]) :=
  conversion_deterministic happyEnv happyEnv (fun _ => rfl) (fun _ _ _ => rfl)
    (fun _ => rfl) (fun _ _ _ => rfl) (fun _ _ => rfl) (fun _ _ _ _ => rfl)
    ("a.svg") ("a.ico") (some [16, 32])

/-- Claim C10: an explicitly empty size list runs the loop zero times, leaves
the collection empty, and terminates through the fatal empty-collection exit
with no save call — the same outcome as when every size fails. -/
theorem empty_size_list_fatal (env : Env) (svgp icop : String) (d0 : Drawing)
    (hload : env.svg2rlg svgp = .ok (some d0)) :
    (svg_to_ico env svgp icop (some [])).1 = .exitNoImages
    ∧ (svg_to_ico env svgp icop (some [])).2.steps = []
    ∧ (svg_to_ico env svgp icop (some [])).2.saveCalled = false := by
  rw [svg_to_ico_noImages env svgp icop [] d0 hload rfl]
  exact ⟨rfl, rfl, rfl⟩

/-- Witness for C10: the all-successful environment with `sizes = []`. -/
theorem empty_size_list_fatal_witness :
    (svg_to_ico happyEnv ("a.svg") ("a.ico") (some [])).1 = .exitNoImages
    ∧ (svg_to_ico happyEnv ("a.svg") ("a.ico") (some [])).2.steps = []
    ∧ (svg_to_ico happyEnv ("a.svg") ("a.ico") (some [])).2.saveCalled
        = false :=
  empty_size_list_fatal happyEnv ("a.svg") ("a.ico") d256 rfl

end SvgToIco
